import Mathlib

/-!
# Verification of the ytaudiobar audio playback engine

Shallow embedding of `src/src-tauri/src/audio_manager.rs` (the command-driven
audio playback engine): the `PlaybackTimer`, the engine state owned by the
dedicated audio thread (`audio_thread`), and the per-command handlers of its
main loop.

Modelling conventions:
* `f64`/`f32` values (positions, durations, rates, volumes) are modelled as
  exact rationals `ℚ`.
* Wall-clock instants (`std::time::Instant`) are modelled as rationals passed
  explicitly as a `now` parameter; `start.elapsed()` becomes `now - start`.
* The rodio `Sink` is modelled by the data the engine feeds it: the queued
  sample list, volume, speed and paused flag.  `Sink::try_new` can fail on
  device errors; that external nondeterminism is a `sinkOk : Bool` parameter.
* The acquisition pipeline (yt-dlp | ffmpeg) is external I/O; its outcome is
  an explicit `AcqResult` input to the `Play` handler.
* `state_change_tx.send(())` is modelled by a notification counter.
-/

namespace YTAudioBar

/-- Sample rate constant from `audio_manager.rs`: `const SAMPLE_RATE: u32 = 44100`. -/
def SAMPLE_RATE : ℕ := 44100

/-- Channel count constant from `audio_manager.rs`: `const CHANNELS: u16 = 2`. -/
def CHANNELS : ℕ := 2

/-- Track descriptor `YTVideoInfo` from `models.rs` (fields the engine uses). -/
structure YTVideoInfo where
  id : String
  title : String
  uploader : String
  duration : ℤ
  deriving Repr, DecidableEq

/-- Shared snapshot `AudioState` from `models.rs`. -/
structure AudioState where
  is_playing : Bool
  current_position : ℚ
  duration : ℚ
  volume : ℚ
  playback_rate : ℚ
  current_track : Option YTVideoInfo
  is_loading : Bool
  deriving Repr, DecidableEq

/-- `AudioState::default()` from `models.rs`. -/
def AudioState.default : AudioState :=
  { is_playing := false
    current_position := 0
    duration := 0
    volume := 1
    playback_rate := 1
    current_track := none
    is_loading := false }

/-- `PlaybackTimer` from `audio_manager.rs`: elapsed-time position tracker. -/
structure PlaybackTimer where
  start_instant : Option ℚ
  start_position : ℚ
  playback_rate : ℚ
  deriving Repr, DecidableEq

namespace PlaybackTimer

/-- `PlaybackTimer::new()`. -/
def new : PlaybackTimer :=
  { start_instant := none, start_position := 0, playback_rate := 1 }

/-- `PlaybackTimer::start(position, rate)` at wall-clock `now`. -/
def start (_t : PlaybackTimer) (now position rate : ℚ) : PlaybackTimer :=
  { start_instant := some now, start_position := position, playback_rate := rate }

/-- `PlaybackTimer::current_position()` read at wall-clock `now`. -/
def current_position (t : PlaybackTimer) (now : ℚ) : ℚ :=
  match t.start_instant with
  | some s => t.start_position + (now - s) * t.playback_rate
  | none => t.start_position

/-- `PlaybackTimer::pause()` at wall-clock `now`; returns the updated timer and
the frozen position (the Rust method mutates `self` and returns `f64`). -/
def pause (t : PlaybackTimer) (now : ℚ) : PlaybackTimer × ℚ :=
  let position := t.current_position now
  ({ t with start_position := position, start_instant := none }, position)

/-- `PlaybackTimer::seek(position)` at wall-clock `now`. -/
def seek (t : PlaybackTimer) (now position : ℚ) : PlaybackTimer :=
  { t with
    start_position := position
    start_instant := if t.start_instant.isSome then some now else t.start_instant }

/-- `PlaybackTimer::set_rate(rate)` at wall-clock `now`. -/
def set_rate (t : PlaybackTimer) (now rate : ℚ) : PlaybackTimer :=
  let t1 :=
    if t.start_instant.isSome then
      { t with start_position := t.current_position now, start_instant := some now }
    else t
  { t1 with playback_rate := rate }

/-- `PlaybackTimer::is_playing()`. -/
def is_playing (t : PlaybackTimer) : Bool :=
  t.start_instant.isSome

/-- `PlaybackTimer::stop()`. -/
def stop (t : PlaybackTimer) : PlaybackTimer :=
  { t with start_instant := none, start_position := 0 }

end PlaybackTimer

/-- The rodio `Sink`, modelled by what the engine feeds it: queued samples
(after `append`), volume, speed, and whether it is paused. -/
structure Sink where
  queued : List ℤ
  volume : ℚ
  speed : ℚ
  paused : Bool
  deriving Repr, DecidableEq

/-- Commands sent to the audio thread (`enum AudioCommand`). -/
inductive AudioCommand where
  | Play (track : YTVideoInfo)
  | TogglePlayPause
  | Pause
  | Stop
  | Seek (position : ℚ)
  | SetVolume (volume : ℚ)
  | SetPlaybackRate (rate : ℚ)
  deriving Repr, DecidableEq

/-- Outcome of the external yt-dlp/ffmpeg acquisition pipeline for a `Play`
command: a spawn / pipe-capture error on either process, a non-zero ffmpeg
exit, or the raw PCM byte stream collected from ffmpeg's stdout. -/
inductive AcqResult where
  | spawnError
  | nonZeroExit
  | output (bytes : List ℕ)
  deriving Repr, DecidableEq

/-- `i16::from_le_bytes([b0, b1])`: little-endian signed 16-bit decoding
(bytes are reduced mod 256 to reflect the `u8` type). -/
def i16_from_le (b0 b1 : ℕ) : ℤ :=
  let v : ℕ := b0 % 256 + 256 * (b1 % 256)
  if v < 32768 then (v : ℤ) else (v : ℤ) - 65536

/-- `pcm_bytes.chunks_exact(2).map(|chunk| i16::from_le_bytes(...))`:
two bytes per sample, any trailing odd byte dropped. -/
def bytesToSamples : List ℕ → List ℤ
  | b0 :: b1 :: rest => i16_from_le b0 b1 :: bytesToSamples rest
  | _ => []

/-- The whole state owned by the dedicated audio thread, plus a counter of
`state_change_tx.send(())` notifications it has published. -/
structure EngineState where
  current_sink : Option Sink
  current_samples : Option (List ℤ)
  position_timer : PlaybackTimer
  last_position_update : ℚ
  state : AudioState
  notified : ℕ
  deriving Repr, DecidableEq

/-- Sample index computed by the `Seek` handler:
`(position * SAMPLE_RATE as f64 * CHANNELS as f64) as usize` then
`.min(samples.len())` — the float-to-usize cast truncates and saturates at 0,
which on rationals is `Int.toNat ∘ Int.floor`. -/
def seekSampleIndex (position : ℚ) (len : ℕ) : ℕ :=
  min ⌊position * (SAMPLE_RATE : ℚ) * (CHANNELS : ℚ)⌋.toNat len

namespace Engine

/-- `AudioCommand::Play(track)` handler (the acquisition outcome and the
success of `Sink::try_new` are external inputs). -/
def handlePlay (acq : AcqResult) (sinkOk : Bool) (now : ℚ) (e : EngineState) :
    EngineState :=
  -- stop current playback; drop retained samples
  let e1 := { e with current_sink := none, current_samples := none }
  match acq with
  | .spawnError => e1
  | .nonZeroExit => e1
  | .output bytes =>
    if bytes.isEmpty then e1
    else
      let samples := bytesToSamples bytes
      -- samples are stored for seeking before the sink is created
      let e2 := { e1 with current_samples := some samples }
      if !sinkOk then e2
      else
        let volume := e.state.volume
        let rate := e.state.playback_rate
        let sink : Sink := { queued := samples, volume := volume, speed := rate, paused := false }
        { e2 with
          current_sink := some sink
          position_timer := e.position_timer.start now 0 rate
          last_position_update := now
          state := { e.state with is_loading := false, is_playing := true, current_position := 0 }
          notified := e.notified + 1 }

/-- `AudioCommand::Seek(position)` handler. -/
def handleSeek (sinkOk : Bool) (now position : ℚ) (e : EngineState) : EngineState :=
  match e.current_samples with
  | none => e
  | some samples =>
    -- stop current playback
    let e1 := { e with current_sink := none }
    let sample_index := seekSampleIndex position samples.length
    let remaining_samples := samples.drop sample_index
    if remaining_samples.isEmpty then e1
    else if !sinkOk then e1
    else
      let volume := e.state.volume
      let rate := e.state.playback_rate
      let sink : Sink :=
        { queued := remaining_samples, volume := volume, speed := rate, paused := false }
      { e1 with
        current_sink := some sink
        position_timer := e.position_timer.start now position rate
        last_position_update := now
        state := { e.state with current_position := position, is_playing := true }
        notified := e.notified + 1 }

/-- The "track ended" test of the `TogglePlayPause` handler:
`(current_pos >= duration - 0.5 && duration > 0.0) || (current_samples.is_some() && current_sink.is_none())`. -/
def trackEnded (now : ℚ) (e : EngineState) : Bool :=
  (decide (e.position_timer.current_position now ≥ e.state.duration - 1/2) &&
    decide (e.state.duration > 0)) ||
  (e.current_samples.isSome && e.current_sink.isNone)

/-- `AudioCommand::TogglePlayPause` handler. -/
def handleToggle (sinkOk : Bool) (now : ℚ) (e : EngineState) : EngineState :=
  let is_playing := e.state.is_playing
  let current_pos := e.position_timer.current_position now
  let rate := e.state.playback_rate
  let volume := e.state.volume
  let track_ended := trackEnded now e
  if is_playing then
    match e.current_sink with
    | some sink =>
      let p := e.position_timer.pause now
      { e with
        current_sink := some { sink with paused := true }
        position_timer := p.1
        state := { e.state with is_playing := false, current_position := p.2 }
        notified := e.notified + 1 }
    | none => e
  else if track_ended then
    match e.current_samples with
    | some samples =>
      let e1 := { e with current_sink := none }
      if sinkOk then
        { e1 with
          current_sink := some { queued := samples, volume := volume, speed := rate, paused := false }
          position_timer := e.position_timer.start now 0 rate
          last_position_update := now
          state := { e.state with is_playing := true, current_position := 0 }
          notified := e.notified + 1 }
      else e1
    | none => e
  else
    match e.current_sink with
    | some sink =>
      { e with
        current_sink := some { sink with paused := false }
        position_timer := e.position_timer.start now current_pos rate
        last_position_update := now
        state := { e.state with is_playing := true, current_position := current_pos }
        notified := e.notified + 1 }
    | none => e

/-- `AudioCommand::Pause` handler. -/
def handlePause (now : ℚ) (e : EngineState) : EngineState :=
  match e.current_sink with
  | some sink =>
    let p := e.position_timer.pause now
    { e with
      current_sink := some { sink with paused := true }
      position_timer := p.1
      state := { e.state with is_playing := false, current_position := p.2 }
      notified := e.notified + 1 }
  | none => e

/-- `AudioCommand::Stop` handler. -/
def handleStop (e : EngineState) : EngineState :=
  { e with
    current_sink := none
    current_samples := none
    position_timer := e.position_timer.stop
    state := { e.state with is_playing := false, current_position := 0 }
    notified := e.notified + 1 }

/-- `AudioCommand::SetVolume(volume)` handler. -/
def handleSetVolume (volume : ℚ) (e : EngineState) : EngineState :=
  match e.current_sink with
  | some sink => { e with current_sink := some { sink with volume := volume } }
  | none => e

/-- `AudioCommand::SetPlaybackRate(rate)` handler. -/
def handleSetPlaybackRate (now rate : ℚ) (e : EngineState) : EngineState :=
  match e.current_sink with
  | some sink =>
    { e with
      current_sink := some { sink with speed := rate }
      position_timer := e.position_timer.set_rate now rate }
  | none => e

/-- The end-of-track check run every tick: if a sink exists, reports empty,
and the timer is running, stop the timer, clamp position to duration, clear
the sink (samples retained) and publish a change.  Whether the sink has
drained is an external observation `sinkEmpty`. -/
def endCheck (sinkEmpty : Bool) (e : EngineState) : EngineState :=
  match e.current_sink with
  | some _ =>
    if sinkEmpty && e.position_timer.is_playing then
      { e with
        position_timer := e.position_timer.stop
        state := { e.state with is_playing := false, current_position := e.state.duration }
        notified := e.notified + 1
        current_sink := none }
    else e
  | none => e

/-- The periodic position publish (every 500 ms) run each tick. -/
def positionUpdate (now : ℚ) (e : EngineState) : EngineState :=
  if e.position_timer.is_playing && decide (now - e.last_position_update > 1/2) then
    let current_pos := e.position_timer.current_position now
    let clamped_pos := min current_pos e.state.duration
    { e with
      state := { e.state with current_position := clamped_pos }
      notified := e.notified + 1
      last_position_update := now }
  else e

/-- Command dispatch (the `match command` of the audio thread loop). -/
def dispatch (acq : AcqResult) (sinkOk : Bool) (now : ℚ) (c : AudioCommand)
    (e : EngineState) : EngineState :=
  match c with
  | .Play _ => handlePlay acq sinkOk now e
  | .TogglePlayPause => handleToggle sinkOk now e
  | .Pause => handlePause now e
  | .Stop => handleStop e
  | .Seek position => handleSeek sinkOk now position e
  | .SetVolume volume => handleSetVolume volume e
  | .SetPlaybackRate rate => handleSetPlaybackRate now rate e

/-- One iteration of the audio thread main loop at wall-clock `now`:
non-blocking command receive (`cmd`), end-of-track check, periodic position
publish, then command dispatch (or sleep when no command was pending). -/
def tick (acq : AcqResult) (sinkOk sinkEmpty : Bool) (now : ℚ)
    (cmd : Option AudioCommand) (e : EngineState) : EngineState :=
  let e1 := endCheck sinkEmpty e
  let e2 := positionUpdate now e1
  match cmd with
  | none => e2
  | some c => dispatch acq sinkOk now c e2

end Engine

/-- `AudioManager::seek`'s boundary clamp: `position.min(duration).max(0.0)`. -/
def seekClamp (position duration : ℚ) : ℚ :=
  max (min position duration) 0

/-- `AudioManager::seek(position)`: reads the current duration from the shared
state, clamps, and enqueues a `Seek` command carrying the clamped position. -/
def AudioManager.seek (s : AudioState) (position : ℚ) : AudioCommand :=
  AudioCommand.Seek (seekClamp position s.duration)

/-- A concrete engine state (fresh audio thread right after startup), used to
instantiate theorems at concrete inputs. -/
def sampleEngine : EngineState :=
  { current_sink := none
    current_samples := none
    position_timer := PlaybackTimer.new
    last_position_update := 0
    state := AudioState.default
    notified := 0 }

/-! ## Claims about the `PlaybackTimer` -/

/-- C3: `current_position()` returns `start_position` when no wall-clock
anchor is set, and `start_position + (elapsed since anchor) × playback_rate`
when an anchor is set; `is_playing()` is true iff an anchor is set. -/
theorem timer_current_position_spec (t : PlaybackTimer) (now : ℚ) :
    (t.start_instant = none → t.current_position now = t.start_position) ∧
    (∀ s : ℚ, t.start_instant = some s →
      t.current_position now = t.start_position + (now - s) * t.playback_rate) ∧
    (t.is_playing = true ↔ t.start_instant.isSome = true) := by
  refine ⟨fun h => ?_, fun s h => ?_, Iff.rfl⟩ <;>
    simp [PlaybackTimer.current_position, h]

/-- Witness for C3 at concrete timers. -/
theorem timer_current_position_spec_witness :
    PlaybackTimer.current_position ⟨some 2, 3, 2⟩ 5 = 3 + (5 - 2) * 2 ∧
    PlaybackTimer.current_position ⟨none, 3, 2⟩ 5 = 3 :=
  ⟨(timer_current_position_spec ⟨some 2, 3, 2⟩ 5).2.1 2 rfl,
   (timer_current_position_spec ⟨none, 3, 2⟩ 5).1 rfl⟩

/-- C4: on a running timer, `set_rate` collapses elapsed time into
`start_position` and re-anchors at now, so the reported position at the
instant of the change is unchanged, and afterwards the position advances at
the new rate. -/
theorem timer_set_rate_continuous (t : PlaybackTimer) (s now rate : ℚ)
    (h : t.start_instant = some s) :
    (t.set_rate now rate).current_position now = t.current_position now ∧
    (t.set_rate now rate).playback_rate = rate ∧
    ∀ d : ℚ, (t.set_rate now rate).current_position (now + d) =
      t.current_position now + d * rate := by
  refine ⟨?_, ?_, fun d => ?_⟩
  · simp [PlaybackTimer.set_rate, PlaybackTimer.current_position, h]
  · simp [PlaybackTimer.set_rate, h]
  · simp only [PlaybackTimer.set_rate, PlaybackTimer.current_position, h, Option.isSome_some,
      if_true]
    ring

/-- Witness for C4: a timer running at rate 1 from position 0 anchored at 0,
rate changed to 2 at instant 3 (position 3); one second later position is 5. -/
theorem timer_set_rate_continuous_witness :
    (PlaybackTimer.set_rate ⟨some 0, 0, 1⟩ 3 2).current_position 3 =
      PlaybackTimer.current_position ⟨some 0, 0, 1⟩ 3 ∧
    (PlaybackTimer.set_rate ⟨some 0, 0, 1⟩ 3 2).current_position (3 + 1) =
      PlaybackTimer.current_position ⟨some 0, 0, 1⟩ 3 + 1 * 2 :=
  ⟨(timer_set_rate_continuous ⟨some 0, 0, 1⟩ 0 3 2 rfl).1,
   (timer_set_rate_continuous ⟨some 0, 0, 1⟩ 0 3 2 rfl).2.2 1⟩

/-- C10: `pause()` on a timer whose anchor is already cleared returns
`start_position` and leaves the timer unchanged; and after any `pause()` a
second consecutive `pause()` returns the same value and changes nothing. -/
theorem timer_pause_idempotent (t : PlaybackTimer) (now now' : ℚ) :
    (t.start_instant = none → t.pause now = (t, t.start_position)) ∧
    ((t.pause now).1.pause now').2 = (t.pause now).2 ∧
    ((t.pause now).1.pause now').1 = (t.pause now).1 := by
  obtain ⟨si, sp, r⟩ := t
  refine ⟨fun h => ?_, ?_, ?_⟩
  · simp only at h
    subst h
    simp [PlaybackTimer.pause, PlaybackTimer.current_position]
  · simp [PlaybackTimer.pause, PlaybackTimer.current_position]
  · simp [PlaybackTimer.pause, PlaybackTimer.current_position]

/-- Witness for C10 at a concrete paused timer. -/
theorem timer_pause_idempotent_witness :
    PlaybackTimer.pause ⟨none, 7, 1⟩ 2 = (⟨none, 7, 1⟩, 7) :=
  (timer_pause_idempotent ⟨none, 7, 1⟩ 2 3).1 rfl

/-! ## Claims about the command API and the seek index arithmetic -/

/-- C7: for duration `d ≥ 0`, `AudioManager::seek(p)` enqueues a `Seek`
command carrying `clamp(p, 0, d)` (the code computes `p.min(d).max(0.0)`,
which agrees with the clamp whenever `0 ≤ d`). -/
theorem seek_clamp_spec (s : AudioState) (p : ℚ) (hd : 0 ≤ s.duration) :
    AudioManager.seek s p = AudioCommand.Seek (min (max p 0) s.duration) := by
  have h : seekClamp p s.duration = min (max p 0) s.duration := by
    rw [seekClamp, max_min_distrib_right, max_eq_left hd]
  rw [AudioManager.seek, h]

/-- Witness for C7: seeking to 15 with duration 10 enqueues `Seek 10`. -/
theorem seek_clamp_spec_witness :
    AudioManager.seek { AudioState.default with duration := 10 } 15 =
      AudioCommand.Seek (min (max 15 0) 10) :=
  seek_clamp_spec { AudioState.default with duration := 10 } 15 (by norm_num [AudioState.default])

/-- C8: the seek slice start index is not necessarily frame-aligned: there is
a position strictly between 0 and the duration whose computed start index
`min(floor(p × 44100 × 2), n)` is odd (not a multiple of the channel count 2)
while lying strictly inside the buffer, so the sliced buffer starts mid-frame. -/
theorem seek_index_misaligned :
    ∃ (p d : ℚ) (n : ℕ), 0 < p ∧ p < d ∧
      seekSampleIndex p n % 2 = 1 ∧ seekSampleIndex p n < n := by
  have h : seekSampleIndex (3 / 88200) 100 = 3 := by
    have hmul : (3 / 88200 : ℚ) * (SAMPLE_RATE : ℕ) * (CHANNELS : ℕ) = 3 := by
      norm_num [SAMPLE_RATE, CHANNELS]
    rw [seekSampleIndex, hmul]
    norm_num
    decide
  exact ⟨3 / 88200, 1, 100, by norm_num, by norm_num, by rw [h], by rw [h]; norm_num⟩

/-- C9: `SetVolume` and `SetPlaybackRate` received with no active playback
handle change nothing: the whole engine state (timer, rate, anchor, shared
snapshot, notification count) is returned unchanged. -/
theorem setvolume_setrate_noop (e : EngineState) (v r now : ℚ)
    (h : e.current_sink = none) :
    Engine.handleSetVolume v e = e ∧ Engine.handleSetPlaybackRate now r e = e := by
  constructor <;> simp [Engine.handleSetVolume, Engine.handleSetPlaybackRate, h]

/-- Witness for C9 at a concrete sink-less engine state. -/
theorem setvolume_setrate_noop_witness :
    Engine.handleSetVolume (1/2) sampleEngine = sampleEngine ∧
    Engine.handleSetPlaybackRate 3 (3/2) sampleEngine = sampleEngine :=
  setvolume_setrate_noop sampleEngine (1/2) (3/2) 3 rfl

/-! ## Claims about the engine command handlers and the main loop -/

/-- C1 (counterexample): a failed `Play` does *not* leave the previously
retained sample buffer unchanged — the handler discards the sink and clears
the samples before running the acquisition, so after a spawn failure the
engine that held buffer `[1]` holds no buffer at all. -/
theorem play_failure_counterexample :
    (Engine.handlePlay AcqResult.spawnError true 0
        { sampleEngine with
          current_samples := some [1]
          current_sink := some { queued := [1], volume := 1, speed := 1, paused := false } }
      ).current_samples ≠ some [1] := by
  decide

/-- C1 (amended): if the Play acquisition fails (spawn error, non-zero
transcoder exit, or empty PCM output), the timer, the last-publish instant,
the shared state snapshot and the notification count are unchanged, but the
previously retained playback handle and sample buffer have already been
discarded: the handler returns the prior state with both cleared. -/
theorem play_failure_spec (e : EngineState) (sinkOk : Bool) (now : ℚ) (acq : AcqResult)
    (hfail : acq = AcqResult.spawnError ∨ acq = AcqResult.nonZeroExit ∨
      acq = AcqResult.output []) :
    Engine.handlePlay acq sinkOk now e =
      { e with current_sink := none, current_samples := none } := by
  rcases hfail with h | h | h <;> subst h <;> simp [Engine.handlePlay]

/-- Witness for C1's amended theorem at a concrete engine state. -/
theorem play_failure_spec_witness :
    Engine.handlePlay AcqResult.nonZeroExit true 0
        { sampleEngine with current_samples := some [2, 3] } =
      { sampleEngine with current_sink := none, current_samples := none } :=
  play_failure_spec { sampleEngine with current_samples := some [2, 3] } true 0
    AcqResult.nonZeroExit (Or.inr (Or.inl rfl))

/-- C2: with a retained buffer of length `n`, the `Seek(position)` handler
slices at index `min(floor(position × 44100 × 2), n)`; when the slice is
empty it changes nothing further (only the already-discarded sink is gone);
otherwise it restarts the timer at exactly `position` and publishes
`current_position = position, is_playing = true`. -/
theorem seek_handler_spec (e : EngineState) (samples : List ℤ) (now position : ℚ)
    (h : e.current_samples = some samples) :
    (0 ≤ position →
      (seekSampleIndex position samples.length : ℤ) =
        min ⌊position * 44100 * 2⌋ (samples.length : ℤ)) ∧
    (samples.drop (seekSampleIndex position samples.length) = [] →
      Engine.handleSeek true now position e = { e with current_sink := none }) ∧
    (samples.drop (seekSampleIndex position samples.length) ≠ [] →
      Engine.handleSeek true now position e =
        { e with
          current_sink := some
            { queued := samples.drop (seekSampleIndex position samples.length)
              volume := e.state.volume
              speed := e.state.playback_rate
              paused := false }
          position_timer :=
            { start_instant := some now, start_position := position,
              playback_rate := e.state.playback_rate }
          last_position_update := now
          state := { e.state with current_position := position, is_playing := true }
          notified := e.notified + 1 }) := by
  refine ⟨fun hp => ?_, fun hemp => ?_, fun hne => ?_⟩
  · have h0 : (0 : ℤ) ≤ ⌊position * (SAMPLE_RATE : ℕ) * (CHANNELS : ℕ)⌋ :=
      Int.floor_nonneg.mpr (by positivity)
    rw [seekSampleIndex]
    push_cast [Int.toNat_of_nonneg h0]
    norm_num [SAMPLE_RATE, CHANNELS]
  · simp [Engine.handleSeek, h, hemp]
  · have hb : (samples.drop (seekSampleIndex position samples.length)).isEmpty = false := by
      simpa [List.isEmpty_iff] using hne
    simp [Engine.handleSeek, h, hb, PlaybackTimer.start]

/-- Witness for C2: seeking to 0 in a 4-sample buffer re-feeds the whole
buffer, restarts the timer at 0 and publishes one notification. -/
theorem seek_handler_spec_witness :
    (Engine.handleSeek true 0 0
        { sampleEngine with current_samples := some [1, 2, 3, 4] }).notified = 1 := by
  rw [(seek_handler_spec { sampleEngine with current_samples := some [1, 2, 3, 4] }
        [1, 2, 3, 4] 0 0 rfl).2.2 (by simp [seekSampleIndex])]
  rfl

/-- C5: `TogglePlayPause` while not playing with the track considered ended
(position within 0.5 s of a positive duration, or buffer retained with no
handle) restarts from sample 0: a new handle is fed the full buffer, the
timer is restarted at 0, and the published state has `is_playing = true`,
`current_position = 0`. -/
theorem toggle_restart_spec (e : EngineState) (samples : List ℤ) (now : ℚ)
    (hnp : e.state.is_playing = false)
    (hs : e.current_samples = some samples)
    (hend : Engine.trackEnded now e = true) :
    Engine.handleToggle true now e =
      { e with
        current_sink := some
          { queued := samples, volume := e.state.volume,
            speed := e.state.playback_rate, paused := false }
        position_timer :=
          { start_instant := some now, start_position := 0,
            playback_rate := e.state.playback_rate }
        last_position_update := now
        state := { e.state with is_playing := true, current_position := 0 }
        notified := e.notified + 1 } := by
  simp [Engine.handleToggle, hnp, hs, hend, PlaybackTimer.start]

/-- Witness for C5: ended state (buffer retained, no handle), toggle restarts
from 0. -/
theorem toggle_restart_spec_witness :
    Engine.handleToggle true 9 { sampleEngine with current_samples := some [5] } =
      { sampleEngine with
        current_samples := some [5]
        current_sink := some { queued := [5], volume := 1, speed := 1, paused := false }
        position_timer := { start_instant := some 9, start_position := 0, playback_rate := 1 }
        last_position_update := 9
        state := { AudioState.default with is_playing := true, current_position := 0 }
        notified := 1 } := by
  have h := toggle_restart_spec { sampleEngine with current_samples := some [5] } [5] 9
    rfl rfl (by simp [Engine.trackEnded, sampleEngine])
  rw [h]
  rfl

/-- C6: an engine tick with a playback handle that reports empty while the
timer is running stops the timer, sets the shared position to exactly the
stored duration, marks not playing, clears the handle (buffer retained) and
publishes one change notification. -/
theorem natural_end_spec (e : EngineState) (sink : Sink) (acq : AcqResult)
    (sinkOk : Bool) (now : ℚ)
    (hs : e.current_sink = some sink)
    (hp : e.position_timer.is_playing = true) :
    Engine.tick acq sinkOk true now none e =
      { e with
        current_sink := none
        position_timer :=
          { start_instant := none, start_position := 0,
            playback_rate := e.position_timer.playback_rate }
        state := { e.state with is_playing := false, current_position := e.state.duration }
        notified := e.notified + 1 } := by
  have hp' : e.position_timer.start_instant.isSome = true := hp
  simp [Engine.tick, Engine.endCheck, Engine.positionUpdate, hs, hp',
    PlaybackTimer.stop, PlaybackTimer.is_playing]

/-- Witness for C6 at a concrete playing engine whose sink has drained. -/
theorem natural_end_spec_witness :
    Engine.tick AcqResult.spawnError true true 0 none
        { sampleEngine with
          current_sink := some { queued := [1], volume := 1, speed := 1, paused := false }
          position_timer := { start_instant := some 0, start_position := 0, playback_rate := 1 }
          state := { AudioState.default with is_playing := true, duration := 10 } } =
      { sampleEngine with
        current_sink := none
        position_timer := { start_instant := none, start_position := 0, playback_rate := 1 }
        state :=
          { AudioState.default with
            is_playing := false
            current_position := 10
            duration := 10 }
        notified := 1 } := by
  have h := natural_end_spec
    { sampleEngine with
      current_sink := some { queued := [1], volume := 1, speed := 1, paused := false }
      position_timer := { start_instant := some 0, start_position := 0, playback_rate := 1 }
      state := { AudioState.default with is_playing := true, duration := 10 } }
    { queued := [1], volume := 1, speed := 1, paused := false }
    AcqResult.spawnError true 0 rfl rfl
  rw [h]
  rfl

end YTAudioBar
